import Mathlib

/-!
Verification development for `scripts/prepare-member-import.py`.

The script is a linear batch transform: it reads a member roster and an
account roster, joins them by normalized email, derives classification
fields, normalizes free-text cells and emits one JSON document.  This file
gives a shallow embedding of that pipeline and proves the specified
properties about it.

Modelling conventions:
* A spreadsheet cell is `Cell`: absent (pandas `NaN`), a text cell, a
  numeric cell (Python floats are idealized as exact rationals; the
  finite-precision rounding of IEEE doubles is not modelled), or a
  datetime cell carrying its ISO rendering.
* Python code that can raise is embedded with `Except PyErr`; an
  uncaught exception is an `Except.error` result for the whole run.
* `pd.Timestamp` (a pandas-library date parser of unbounded generality)
  is a parameter `ts : Cell → Except PyErr String` of the pipeline; the
  script only ever calls it under a catch-all handler.
-/

/-- Exception classes seen by the script's handlers. -/
inductive PyErr where
  | valueError
  | typeError
  | overflowError
deriving DecidableEq, Repr

/-- Decidable equality of embedded results, so concrete runs can be
checked by `decide`. -/
instance {ε α : Type} [DecidableEq ε] [DecidableEq α] : DecidableEq (Except ε α) := fun a b =>
  match a, b with
  | .error e, .error f =>
    if h : e = f then .isTrue (by rw [h]) else .isFalse (fun hc => h (Except.error.inj hc))
  | .ok x, .ok y =>
    if h : x = y then .isTrue (by rw [h]) else .isFalse (fun hc => h (Except.ok.inj hc))
  | .error _, .ok _ => .isFalse (fun hc => Except.noConfusion hc)
  | .ok _, .error _ => .isFalse (fun hc => Except.noConfusion hc)

/-- Value of the Python `float` type: finite (idealized exact), signed
infinity, or nan.  `float("inf")` and `float("nan")` are legal in Python,
which is what makes this three-way split observable to the script. -/
inductive PyFloat where
  | finite (q : ℚ)
  | inf (neg : Bool)
  | nan
deriving DecidableEq, Repr

/-- One spreadsheet cell as handed to the script by `pandas.read_excel`. -/
inductive Cell where
  | absent
  | str (s : String)
  | num (q : ℚ)
  | date (iso : String)
deriving DecidableEq, Repr

/-- `pd.isna` on a cell value. -/
def isna : Cell → Bool
  | .absent => true
  | _ => false

/-- `pd.notna` on a cell value. -/
def notna (c : Cell) : Bool := !(isna c)

/-- Whitespace predicate for Python `str.strip()` (ASCII fragment; the
exotic Unicode space classes Python also strips are not modelled). -/
def isPySpace (c : Char) : Bool := c.isWhitespace

/-- Python `str.strip()`: drop leading and trailing whitespace. -/
def pyStrip (s : String) : String :=
  String.mk (((s.data.dropWhile isPySpace).reverse.dropWhile isPySpace).reverse)

/-- Python `str.lower()` (ASCII fragment, like `pyStrip`), computed on
the character list so that it reduces definitionally. -/
def pyLower (s : String) : String := String.mk (s.data.map Char.toLower)

/-- Bool test that `needle` occurs at the head of `hay`. -/
def headMatches : List Char → List Char → Bool
  | [], _ => true
  | _ :: _, [] => false
  | a :: as, b :: bs => a == b && headMatches as bs

/-- Bool test that `needle` occurs contiguously inside `hay`. -/
def hasSub (needle : List Char) : List Char → Bool
  | [] => headMatches needle []
  | c :: cs => headMatches needle (c :: cs) || hasSub needle cs

/-- Python `needle in hay` on strings. -/
def pyInStr (needle hay : String) : Bool := hasSub needle.data hay.data

/-- Split a character list at every separator, like Python `str.split(sep)`:
`""` yields `[""]`, and adjacent separators yield empty fields. -/
def splitList (p : Char → Bool) : List Char → List (List Char)
  | [] => [[]]
  | c :: cs =>
    let rest := splitList p cs
    if p c then [] :: rest
    else (c :: rest.headD []) :: rest.tail

/-- Python `s.split(sep)` for a one-character separator. -/
def pySplit (sep : Char) (s : String) : List String :=
  (splitList (fun c => c == sep) s.data).map String.mk

/-- Python `" ".join`. -/
def joinSp : List String → String
  | [] => ""
  | [s] => s
  | s :: rest => s ++ " " ++ joinSp rest

/-- Python `" ".join(filter(None, parts))` over optional name parts.  The
script only feeds it `safe_str` results, which are never `some ""`, so
dropping `none` matches Python's truthiness filter. -/
def joinNames (parts : List (Option String)) : String :=
  joinSp (parts.filterMap id)

/-- Accumulate a decimal digit string; any non-digit aborts.  The empty
list accumulates to `0`. -/
def natOfDigits (cs : List Char) : Option Nat :=
  cs.foldlM (fun acc c => if c.isDigit then some (acc * 10 + (c.toNat - 48)) else none) 0

/-- Nonempty decimal digit run. -/
def digitsToNat (cs : List Char) : Option Nat :=
  if cs.isEmpty then none else natOfDigits cs

/-- Unsigned decimal mantissa `digits[.digits]` as an exact rational
(underscore digit grouping, legal in Python literals, is not modelled). -/
def parseDec (cs : List Char) : Option ℚ :=
  match splitList (fun c => c == '.') cs with
  | [a] => (digitsToNat a).map (fun n => (n : ℚ))
  | [a, b] =>
    if a.isEmpty && b.isEmpty then none
    else
      match natOfDigits a, natOfDigits b with
      | some i, some f => some ((i : ℚ) + (f : ℚ) / ((10 : ℚ) ^ b.length))
      | _, _ => none
  | _ => none

/-- Optionally signed decimal exponent. -/
def parseExp (cs : List Char) : Option Int :=
  match cs with
  | '+' :: ds => (digitsToNat ds).map (fun n => (n : Int))
  | '-' :: ds => (digitsToNat ds).map (fun n => -(n : Int))
  | ds => (digitsToNat ds).map (fun n => (n : Int))

/-- Unsigned numeric body `mantissa[(e|E)exponent]`. -/
def parseNumBody (cs : List Char) : Option ℚ :=
  match splitList (fun c => c == 'e' || c == 'E') cs with
  | [m] => parseDec m
  | [m, e] =>
    match parseDec m, parseExp e with
    | some q, some ex => some (q * (10 : ℚ) ^ ex)
    | _, _ => none
  | _ => none

/-- Python `float(s)` on a string: strip, optional sign, then either the
special words `inf`/`infinity`/`nan` (case-insensitive) or a decimal
number with optional exponent. -/
def parsePyFloat (s : String) : Option PyFloat :=
  let t := (pyStrip s).data
  let sgn : Bool × List Char :=
    match t with
    | '+' :: cs => (false, cs)
    | '-' :: cs => (true, cs)
    | cs => (false, cs)
  let low := sgn.2.map Char.toLower
  if low == "inf".data || low == "infinity".data then some (.inf sgn.1)
  else if low == "nan".data then some .nan
  else
    match parseNumBody sgn.2 with
    | some q => some (.finite (if sgn.1 then -q else q))
    | none => none

/-- Python `int(s)` on a string: strip, optional sign, digits only
(unlike `float`, no dot, no exponent, no `inf`/`nan`). -/
def intLit (s : String) : Option Int :=
  match (pyStrip s).data with
  | '+' :: cs => (digitsToNat cs).map (fun n => (n : Int))
  | '-' :: cs => (digitsToNat cs).map (fun n => -(n : Int))
  | cs => (digitsToNat cs).map (fun n => (n : Int))

/-- Truncation toward zero, the behaviour of Python `int(float)`. -/
def ratTrunc (q : ℚ) : Int :=
  if q.num < 0 then -(Int.ofNat (q.num.natAbs / q.den)) else Int.ofNat (q.num.natAbs / q.den)

/-- Python `str()` of a float.  For integral values this matches Python
(`str(2021.0) == "2021.0"`); for non-integral rationals a fraction
rendering stands in for Python's shortest-roundtrip repr (the pipeline
never converts a non-integral numeric cell to text along a path any
claim touches). -/
def pyFloatRepr (q : ℚ) : String :=
  if q.den = 1 then toString q.num ++ ".0" else toString q.num ++ "/" ++ toString q.den

/-- Python `str()` of a cell value.  `str(nan) == "nan"`; the datetime
rendering stands in for `str(datetime)`. -/
def pyStr : Cell → String
  | .absent => "nan"
  | .str s => s
  | .num q => pyFloatRepr q
  | .date iso => iso

/-- Python `float(cell)`: floats pass through, strings are parsed
(`ValueError` on failure), datetimes raise `TypeError`, and a NaN cell is
the float `nan`. -/
def pyFloat : Cell → Except PyErr PyFloat
  | .absent => .ok .nan
  | .str s =>
    match parsePyFloat s with
    | some f => .ok f
    | none => .error .valueError
  | .num q => .ok (.finite q)
  | .date _ => .error .typeError

/-- Python `int(float)`: truncates finite values toward zero, raises
`OverflowError` on infinities and `ValueError` on nan. -/
def pyIntOfFloat : PyFloat → Except PyErr Int
  | .finite q => .ok (ratTrunc q)
  | .inf _ => .error .overflowError
  | .nan => .error .valueError

/-- Python `int(cell)`: `int(nan)` raises `ValueError`, numbers truncate
toward zero, strings must be integer literals, datetimes raise
`TypeError`. -/
def pyInt : Cell → Except PyErr Int
  | .absent => .error .valueError
  | .str s =>
    match intLit s with
    | some i => .ok i
    | none => .error .valueError
  | .num q => .ok (ratTrunc q)
  | .date _ => .error .typeError

/-- `parse_skills` from the script: blank cell gives `[]`; otherwise
replace `;` by `,`, split on `,`, strip each token and keep the nonempty
ones, in order, duplicates included. -/
def parse_skills (raw : Cell) : List String :=
  if isna raw then []
  else
    ((splitList (fun c => c == ',')
        ((pyStr raw).data.map (fun c => if c == ';' then ',' else c))).map
      (fun cs => pyStrip (String.mk cs))).filter (fun s => s != "")

/-- `normalize_academic_level` from the script: case-insensitive substring
buckets, checked in priority order. -/
def normalize_academic_level (raw : Cell) : Option String :=
  if isna raw then none
  else
    let val := pyStrip (pyLower (pyStr raw))
    if pyInStr "licenciatura" val then some "licenciatura"
    else if pyInStr "posgrado" val || pyInStr "maestr" val || pyInStr "doctor" val then
      some "posgrado"
    else if pyInStr "curso" val || pyInStr "actualización" val then some "curso"
    else none

/-- `safe_str` from the script: `None` on an absent cell, otherwise the
stripped text, with the empty string collapsing to `None`. -/
def safe_str (val : Cell) : Option String :=
  if isna val then none
  else if pyStrip (pyStr val) == "" then none else some (pyStrip (pyStr val))

/-- Body of the `try` in `normalize_generation`: `str(int(float(raw)))`. -/
def genTryBody (raw : Cell) : Except PyErr String :=
  match pyFloat raw with
  | .error e => .error e
  | .ok f =>
    match pyIntOfFloat f with
    | .error e => .error e
    | .ok i => .ok (toString i)

/-- `normalize_generation` from the script.  The `except` clause catches
exactly `(ValueError, TypeError)`; any other exception class escapes the
function, which is why the codomain is `Except`. -/
def normalize_generation (raw : Cell) : Except PyErr (Option String) :=
  if isna raw then .ok none
  else
    match genTryBody raw with
    | .ok s => .ok (some s)
    | .error .valueError => .ok (some (pyStrip (pyStr raw)))
    | .error .typeError => .ok (some (pyStrip (pyStr raw)))
    | .error .overflowError => .error .overflowError

/-- `to_iso` from the script: absent gives `None`, a datetime renders
itself, anything else goes through `pd.Timestamp` (the parameter `ts`)
under a catch-all `except Exception` that degrades to `None`. -/
def to_iso (ts : Cell → Except PyErr String) (val : Cell) : Option String :=
  if isna val then none
  else
    match val with
    | .date iso => some iso
    | v =>
      match ts v with
      | .ok s => some s
      | .error _ => none

/-- `EXCLUDED_EMAILS` from the script (a two-element set of test
accounts). -/
def EXCLUDED_EMAILS : List String := ["prueba@secid.mx", "prueba_2@secid.mx"]

/-- The script's `email_norm` column: strip then lowercase. -/
def normEmail (s : String) : String := pyLower (pyStrip s)

/-- One row of `members-accounts.xlsx`: the email column (assumed textual,
as the script does) and the `Numero de cuenta` cell. -/
structure AccountRow where
  email : String
  numeroCuenta : Cell
deriving DecidableEq, Repr

/-- Python dict assignment `m[k] = v`: overwrite the existing entry in
place if the key is present (dict keys are unique, so matching the first
occurrence suffices), else append a new entry at the end. -/
def dictInsert : List (String × String) → String → String → List (String × String)
  | [], k, v => [(k, v)]
  | p :: rest, k, v => if p.1 == k then (k, v) :: rest else p :: dictInsert rest k v

/-- Python dict lookup `m.get(k)`. -/
def alookup (m : List (String × String)) (k : String) : Option String :=
  match m with
  | [] => none
  | p :: rest => if p.1 == k then some p.2 else alookup rest k

/-- The account-map loop from `main`, with the accumulated dict explicit:
rows with a blank account number are skipped, the rest insert
`str(int(nc))` under the normalized email. -/
def buildAccountMapFrom : List (String × String) → List AccountRow →
    Except PyErr (List (String × String))
  | m, [] => .ok m
  | m, r :: rs =>
    if notna r.numeroCuenta then
      match pyInt r.numeroCuenta with
      | .ok i => buildAccountMapFrom (dictInsert m (normEmail r.email) (toString i)) rs
      | .error e => .error e
    else buildAccountMapFrom m rs

/-- The account map of a run, starting from the empty dict. -/
def buildAccountMap (rows : List AccountRow) : Except PyErr (List (String × String)) :=
  buildAccountMapFrom [] rows

/-- One row of `members.xlsx`.  The email column is assumed textual (the
script calls `.strip()` on it unconditionally); every survey column is a
`Cell`.  Field names abbreviate the Spanish column headers. -/
structure MemberRow where
  email : String
  nombres : Cell
  apellidoPaterno : Cell
  apellidoMaterno : Cell
  miembro : Cell
  tipoRegistro : Cell
  nivelAcademico : Cell
  sede : Cell
  generacion : Cell
  genero : Cell
  empresa : Cell
  puesto : Cell
  situacionProfesional : Cell
  maxGrado : Cell
  maxGradoInstitucion : Cell
  maxGradoPrograma : Cell
  intereses : Cell
  nivelExperiencia : Cell
  estudiasActualmente : Cell
  linkedin : Cell
  instagram : Cell
  twitter : Cell
  facebook : Cell
  telefono : Cell
  cv : Cell
  cvHighlights : Cell
  fechaNacimiento : Cell
  marcaTemporal : Cell
  whatsapp : Cell
  objetivos : Cell
  expectativas : Cell
  prioBolsaTrabajo : Cell
  prioHackatones : Cell
  prioCursosEspecializados : Cell
  prioSeminarios : Cell
  prioAsesorias : Cell
  prioMentoria : Cell
  prioNewsletter : Cell
  comentarios : Cell
deriving DecidableEq, Repr

/-- The exclusion-filter predicate `~df["email_norm"].isin(EXCLUDED_EMAILS)`. -/
def survives (r : MemberRow) : Bool := decide (normEmail r.email ∉ EXCLUDED_EMAILS)

/-- The script's `tipo` variable: `safe_str(row.get("Tipo de registro")) or ""`. -/
def tipoOf (row : MemberRow) : String := (safe_str row.tipoRegistro).getD ""

/-- The single member/collaborator decision:
`is_member or "miembro" in tipo.lower() or "egresado" in tipo.lower()`. -/
def memberCond (row : MemberRow) : Bool :=
  notna row.miembro || pyInStr "miembro" (pyLower (tipoOf row))
    || pyInStr "egresado" (pyLower (tipoOf row))

/-- One output record, the dict assembled per surviving row.  `lastName`
and `displayName` are plain strings in the source dict; the fields built
by `safe_str`/`to_iso`/the account lookup are optional (`None` becomes
JSON `null`). -/
structure Record where
  email : String
  displayName : String
  firstName : Option String
  lastName : String
  role : String
  registrationType : String
  verificationStatus : String
  lifecycleStatus : String
  numeroCuenta : Option String
  academicLevel : Option String
  campus : Option String
  generation : Option String
  gender : Option String
  company : Option String
  position : Option String
  professionalStatus : Option String
  maxDegree : Option String
  maxDegreeInstitution : Option String
  maxDegreeProgram : Option String
  skills : List String
  experienceLevel : Option String
  currentlyStudying : Option String
  linkedin : Option String
  instagram : Option String
  twitter : Option String
  facebook : Option String
  phone : Option String
  cvUrl : Option String
  cvHighlights : Option String
  birthDate : Option String
  registeredAt : Option String
  whatsappConsent : Option String
  objectives : Option String
  expectations : Option String
  priorities : List (String × String)
  comments : Option String
deriving DecidableEq, Repr

/-- The `priorities` sub-dict: seven fixed initiative keys in source
order, `safe_str` applied to each rating cell, `None`-valued keys dropped
(the dict comprehension on the line after the record literal). -/
def buildPriorities (row : MemberRow) : List (String × String) :=
  ([("bolsaTrabajo", safe_str row.prioBolsaTrabajo),
    ("hackatones", safe_str row.prioHackatones),
    ("cursosEspecializados", safe_str row.prioCursosEspecializados),
    ("seminarios", safe_str row.prioSeminarios),
    ("asesorias", safe_str row.prioAsesorias),
    ("mentoria", safe_str row.prioMentoria),
    ("newsletter", safe_str row.prioNewsletter)]).filterMap
    (fun kv => kv.2.map (fun v => (kv.1, v)))

/-- The record built for one surviving row, given the already-normalized
generation value (the one fallible step, split out in `processRow`). -/
def recordOf (ts : Cell → Except PyErr String) (account_map : List (String × String))
    (row : MemberRow) (gen : Option String) : Record :=
  let email := pyStrip row.email
  let email_lower := pyLower email
  let first_name := safe_str row.nombres
  let last_paterno := safe_str row.apellidoPaterno
  let last_materno := safe_str row.apellidoMaterno
  let last_name := joinNames [last_paterno, last_materno]
  let display_name := joinNames [first_name, last_paterno]
  { email := email
    displayName := if display_name = "" then (pySplit '@' email).headD email else display_name
    firstName := first_name
    lastName := last_name
    role := if memberCond row then "member" else "collaborator"
    registrationType := if memberCond row then "member" else "collaborator"
    verificationStatus := if memberCond row then "approved" else "none"
    lifecycleStatus := if memberCond row then "active" else "collaborator"
    numeroCuenta := alookup account_map email_lower
    academicLevel := normalize_academic_level row.nivelAcademico
    campus := safe_str row.sede
    generation := gen
    gender := safe_str row.genero
    company := safe_str row.empresa
    position := safe_str row.puesto
    professionalStatus := safe_str row.situacionProfesional
    maxDegree := safe_str row.maxGrado
    maxDegreeInstitution := safe_str row.maxGradoInstitucion
    maxDegreeProgram := safe_str row.maxGradoPrograma
    skills := parse_skills row.intereses
    experienceLevel := safe_str row.nivelExperiencia
    currentlyStudying := safe_str row.estudiasActualmente
    linkedin := safe_str row.linkedin
    instagram := safe_str row.instagram
    twitter := safe_str row.twitter
    facebook := safe_str row.facebook
    phone := safe_str row.telefono
    cvUrl := safe_str row.cv
    cvHighlights := safe_str row.cvHighlights
    birthDate := to_iso ts row.fechaNacimiento
    registeredAt := to_iso ts row.marcaTemporal
    whatsappConsent := safe_str row.whatsapp
    objectives := safe_str row.objetivos
    expectations := safe_str row.expectativas
    priorities := buildPriorities row
    comments := safe_str row.comentarios }

/-- Build the record for one row; `normalize_generation` is the only
field computation whose exception can escape. -/
def processRow (ts : Cell → Except PyErr String) (account_map : List (String × String))
    (row : MemberRow) : Except PyErr Record :=
  match normalize_generation row.generacion with
  | .error e => .error e
  | .ok gen => .ok (recordOf ts account_map row gen)

/-- The record-building loop: one record appended per row, the first
uncaught exception aborting the whole run. -/
def mapME (f : MemberRow → Except PyErr Record) : List MemberRow → Except PyErr (List Record)
  | [] => .ok []
  | r :: rs =>
    match f r with
    | .error e => .error e
    | .ok rec =>
      match mapME f rs with
      | .error e => .error e
      | .ok recs => .ok (rec :: recs)

/-- The output document (its `generatedAt` run timestamp is the `now`
argument of `runPipeline`; JSON serialization and console printing are
outside the embedding). -/
structure Output where
  generatedAt : String
  totalMembers : Nat
  memberCount : Nat
  collaboratorCount : Nat
  excludedEmails : List String
  members : List Record
deriving DecidableEq, Repr

/-- The whole `main` transform: filter out excluded emails, build the
account map, build one record per surviving row in order, then aggregate
the counters exactly as the output dict does. -/
def runPipeline (ts : Cell → Except PyErr String) (now : String)
    (memberRows : List MemberRow) (accountRows : List AccountRow) : Except PyErr Output :=
  match buildAccountMap accountRows with
  | .error e => .error e
  | .ok am =>
    match mapME (processRow ts am) (memberRows.filter survives) with
    | .error e => .error e
    | .ok records =>
      .ok { generatedAt := now
            totalMembers := records.length
            memberCount := (records.filter (fun r => r.role == "member")).length
            collaboratorCount := (records.filter (fun r => r.role == "collaborator")).length
            excludedEmails := EXCLUDED_EMAILS
            members := records }

/-- Spec-side rendering of the `parseSkills` rule, written from the
spec's words: split the cell text on commas and semicolons directly, trim
each token, drop the empties, keep order and duplicates. -/
def parseSkillsSpec (raw : Cell) : List String :=
  if isna raw then []
  else
    ((splitList (fun c => c == ',' || c == ';') (pyStr raw).data).map
      (fun cs => pyStrip (String.mk cs))).filter (fun s => s != "")

/-- Cells whose text parses as an infinite float, the inputs on which
`normalize_generation`'s `except (ValueError, TypeError)` is too narrow. -/
def parsesToInf (c : Cell) : Bool :=
  match c with
  | .str s =>
    match parsePyFloat s with
    | some (.inf _) => true
    | _ => false
  | _ => false

/-! ### Helper lemmas about the string utilities -/

theorem data_append (a b : String) : (a ++ b).data = a.data ++ b.data := rfl

theorem append_space_ne_empty (a b : String) : a ++ " " ++ b ≠ "" := by
  intro h
  have hd := congrArg String.data h
  have h1 : (" " : String).data = [' '] := rfl
  have h0 : ("" : String).data = [] := rfl
  rw [data_append, data_append, h1, h0] at hd
  simp at hd

theorem safe_str_ne_empty {c : Cell} {s : String} (h : safe_str c = some s) : s ≠ "" := by
  unfold safe_str at h
  split at h
  · exact absurd h (by simp)
  · split at h
    · exact absurd h (by simp)
    · rename_i hne
      cases h
      simpa using hne

theorem joinNames_pair_ne_empty {a b : Option String}
    (ha : ∀ s, a = some s → s ≠ "") (hb : ∀ s, b = some s → s ≠ "")
    (hne : ¬(a = none ∧ b = none)) : joinNames [a, b] ≠ "" := by
  cases a with
  | none =>
    cases b with
    | none => exact absurd ⟨rfl, rfl⟩ hne
    | some t => simpa [joinNames, joinSp] using hb t rfl
  | some s =>
    cases b with
    | none => simpa [joinNames, joinSp] using ha s rfl
    | some t =>
      simpa [joinNames, joinSp] using append_space_ne_empty s t

/-! ### Helper lemmas about the pipeline skeleton -/

theorem processRow_ok {ts am row rec} (h : processRow ts am row = Except.ok rec) :
    ∃ gen, normalize_generation row.generacion = Except.ok gen ∧ rec = recordOf ts am row gen := by
  unfold processRow at h
  cases hg : normalize_generation row.generacion with
  | error e => rw [hg] at h; cases h
  | ok gen => rw [hg] at h; cases h; exact ⟨gen, rfl, rfl⟩

theorem recordOf_role (ts am row gen) :
    (recordOf ts am row gen).role = "member" ∨ (recordOf ts am row gen).role = "collaborator" := by
  cases hm : memberCond row
  · right; simp [recordOf, hm]
  · left; simp [recordOf, hm]

theorem mapME_ok_mem {f : MemberRow → Except PyErr Record} {l : List MemberRow}
    {recs : List Record} (h : mapME f l = Except.ok recs) :
    ∀ r ∈ recs, ∃ x ∈ l, f x = Except.ok r := by
  induction l generalizing recs with
  | nil =>
    unfold mapME at h
    cases h
    intro r hr
    simp at hr
  | cons x xs ih =>
    unfold mapME at h
    cases hx : f x with
    | error e => rw [hx] at h; cases h
    | ok rec =>
      rw [hx] at h
      cases hxs : mapME f xs with
      | error e => rw [hxs] at h; cases h
      | ok recs' =>
        rw [hxs] at h
        cases h
        intro r hr
        rcases List.mem_cons.mp hr with rfl | hr'
        · exact ⟨x, List.mem_cons_self x xs, hx⟩
        · obtain ⟨y, hy, hfy⟩ := ih hxs r hr'
          exact ⟨y, List.mem_cons_of_mem x hy, hfy⟩

theorem runPipeline_ok {ts now mrows arows out}
    (h : runPipeline ts now mrows arows = Except.ok out) :
    ∃ am records, buildAccountMap arows = Except.ok am ∧
      mapME (processRow ts am) (mrows.filter survives) = Except.ok records ∧
      out = { generatedAt := now
              totalMembers := records.length
              memberCount := (records.filter (fun r => r.role == "member")).length
              collaboratorCount := (records.filter (fun r => r.role == "collaborator")).length
              excludedEmails := EXCLUDED_EMAILS
              members := records } := by
  unfold runPipeline at h
  split at h
  · cases h
  · rename_i am ha
    split at h
    · cases h
    · rename_i records hm
      cases h
      exact ⟨am, records, ha, hm, rfl⟩

theorem filter_role_partition (recs : List Record)
    (h : ∀ r ∈ recs, r.role = "member" ∨ r.role = "collaborator") :
    recs.length = (recs.filter (fun r => r.role == "member")).length
      + (recs.filter (fun r => r.role == "collaborator")).length := by
  induction recs with
  | nil => rfl
  | cons r t ih =>
    have hr := h r (List.mem_cons_self r t)
    have ht := ih fun x hx => h x (List.mem_cons_of_mem r hx)
    have e1 : (("member" : String) == "member") = true := rfl
    have e2 : (("member" : String) == "collaborator") = false := rfl
    have e3 : (("collaborator" : String) == "member") = false := rfl
    have e4 : (("collaborator" : String) == "collaborator") = true := rfl
    rcases hr with hm | hc
    · simp [List.filter_cons, hm, e1, e2]
      omega
    · simp [List.filter_cons, hc, e3, e4]
      omega

/-! ### Helper lemmas about the account dict -/

theorem alookup_dictInsert_self (m : List (String × String)) (k v : String) :
    alookup (dictInsert m k v) k = some v := by
  induction m with
  | nil => simp [dictInsert, alookup]
  | cons p t ih =>
    cases hp : (p.1 == k) with
    | true => simp [dictInsert, alookup, hp]
    | false => simp [dictInsert, alookup, hp, ih]

theorem alookup_dictInsert_ne (m : List (String × String)) (k v k' : String)
    (hne : k' ≠ k) : alookup (dictInsert m k v) k' = alookup m k' := by
  have hkk : (k == k') = false := beq_eq_false_iff_ne.mpr (Ne.symm hne)
  induction m with
  | nil => simp [dictInsert, alookup, hkk]
  | cons p t ih =>
    cases hp : (p.1 == k) with
    | true =>
      have hpk : p.1 = k := by simpa using hp
      have h2 : (p.1 == k') = false := by rw [hpk]; exact hkk
      simp [dictInsert, alookup, hp, h2, hkk]
    | false =>
      cases hq : (p.1 == k') with
      | true => simp [dictInsert, alookup, hp, hq]
      | false => simp [dictInsert, alookup, hp, hq, ih]

theorem buildAccountMapFrom_append (rows : List AccountRow) (r : AccountRow) :
    ∀ m, buildAccountMapFrom m (rows ++ [r]) =
      match buildAccountMapFrom m rows with
      | .error e => .error e
      | .ok m' => buildAccountMapFrom m' [r] := by
  induction rows with
  | nil => intro m; rfl
  | cons a t ih =>
    intro m
    simp only [List.cons_append, buildAccountMapFrom]
    cases hn : notna a.numeroCuenta with
    | false => rw [if_neg (show ¬(false = true) by simp)]; exact ih m
    | true =>
      rw [if_pos rfl]
      cases hi : pyInt a.numeroCuenta with
      | error e => rfl
      | ok i => exact ih (dictInsert m (normEmail a.email) (toString i))

/-! ### Splitting on comma after semicolon substitution -/

theorem splitList_semi (l : List Char) :
    splitList (fun c => c == ',') (l.map (fun c => if c == ';' then ',' else c))
      = splitList (fun c => c == ',' || c == ';') l := by
  induction l with
  | nil => rfl
  | cons c cs ih =>
    simp only [beq_iff_eq] at ih
    by_cases h1 : c = ';'
    · subst h1
      simpa [splitList] using ih
    · by_cases h2 : c = ','
      · subst h2
        simpa [splitList] using ih
      · have b1 : (c == ';') = false := beq_eq_false_iff_ne.mpr h1
        have b2 : (c == ',') = false := beq_eq_false_iff_ne.mpr h2
        simp [splitList, b1, b2, ih]

/-! ### Concrete instantiations used by the witnesses -/

/-- A concrete stand-in for the `pd.Timestamp` parameter: a parser that
rejects every cell (any concrete function would do; it only matters
that the pipeline is total in this parameter). -/
def tsFail : Cell → Except PyErr String := fun _ => Except.error PyErr.valueError

/-- A member row with the given email and every survey cell blank. -/
def blankRow (email : String) : MemberRow :=
  { email := email, nombres := .absent, apellidoPaterno := .absent, apellidoMaterno := .absent,
    miembro := .absent, tipoRegistro := .absent, nivelAcademico := .absent, sede := .absent,
    generacion := .absent, genero := .absent, empresa := .absent, puesto := .absent,
    situacionProfesional := .absent, maxGrado := .absent, maxGradoInstitucion := .absent,
    maxGradoPrograma := .absent, intereses := .absent, nivelExperiencia := .absent,
    estudiasActualmente := .absent, linkedin := .absent, instagram := .absent,
    twitter := .absent, facebook := .absent, telefono := .absent, cv := .absent,
    cvHighlights := .absent, fechaNacimiento := .absent, marcaTemporal := .absent,
    whatsapp := .absent, objetivos := .absent, expectativas := .absent,
    prioBolsaTrabajo := .absent, prioHackatones := .absent, prioCursosEspecializados := .absent,
    prioSeminarios := .absent, prioAsesorias := .absent, prioMentoria := .absent,
    prioNewsletter := .absent, comentarios := .absent }

/-! ### The claims -/

/-- C1: a row is classified member exactly when the membership flag cell
is non-absent or the lowercased registration-type text has "miembro" or
"egresado" as a substring, and that single boolean fixes all four
classification fields jointly: (member, member, approved, active) in the
member case and (collaborator, collaborator, none, collaborator)
otherwise; the two cases of the boolean are exhaustive, so no other
combination of the four fields appears in any output record. -/
theorem classification_four_fields (ts : Cell → Except PyErr String)
    (am : List (String × String)) (row : MemberRow) (rec : Record)
    (h : processRow ts am row = Except.ok rec) :
    (memberCond row = true →
      rec.role = "member" ∧ rec.registrationType = "member" ∧
      rec.verificationStatus = "approved" ∧ rec.lifecycleStatus = "active")
    ∧ (memberCond row = false →
      rec.role = "collaborator" ∧ rec.registrationType = "collaborator" ∧
      rec.verificationStatus = "none" ∧ rec.lifecycleStatus = "collaborator") := by
  obtain ⟨gen, hg, rfl⟩ := processRow_ok h
  constructor
  · intro hm
    refine ⟨?_, ?_, ?_, ?_⟩ <;> simp [recordOf, hm]
  · intro hm
    refine ⟨?_, ?_, ?_, ?_⟩ <;> simp [recordOf, hm]

/-- A row carrying the membership flag, for the C1 witness. -/
def rowM : MemberRow := { blankRow "m@x.com" with miembro := Cell.str "x" }

/-- Witness for C1: a concrete flagged row comes out with the member
quadruple. -/
theorem classification_four_fields_witness :
    (processRow tsFail [] rowM).map
        (fun r => (r.role, r.registrationType, r.verificationStatus, r.lifecycleStatus))
      = Except.ok ("member", "member", "approved", "active") := by
  have h0 : processRow tsFail [] rowM = Except.ok (recordOf tsFail [] rowM none) := rfl
  have h := (classification_four_fields tsFail [] rowM (recordOf tsFail [] rowM none) h0).1 rfl
  rw [h0, Except.map]
  simp [h.1, h.2.1, h.2.2.1, h.2.2.2]

/-- C2: every successful run's output satisfies
`totalMembers = memberCount + collaboratorCount = length members`, where
the two counters count the records whose role is member respectively
collaborator. -/
theorem output_counts_invariant (ts : Cell → Except PyErr String) (now : String)
    (mrows : List MemberRow) (arows : List AccountRow) (out : Output)
    (h : runPipeline ts now mrows arows = Except.ok out) :
    out.totalMembers = out.memberCount + out.collaboratorCount
    ∧ out.totalMembers = out.members.length
    ∧ out.memberCount = (out.members.filter (fun r => r.role == "member")).length
    ∧ out.collaboratorCount = (out.members.filter (fun r => r.role == "collaborator")).length := by
  obtain ⟨am, records, ham, hmap, rfl⟩ := runPipeline_ok h
  refine ⟨?_, rfl, rfl, rfl⟩
  have hroles : ∀ r ∈ records, r.role = "member" ∨ r.role = "collaborator" := by
    intro r hr
    obtain ⟨x, hx, hfx⟩ := mapME_ok_mem hmap r hr
    obtain ⟨gen, hg, rfl⟩ := processRow_ok hfx
    exact recordOf_role ts am x gen
  exact filter_role_partition records hroles

/-- Output of the one-blank-row run used by the C2 witness. -/
def outA : Output :=
  { generatedAt := "now", totalMembers := 1, memberCount := 0, collaboratorCount := 1,
    excludedEmails := EXCLUDED_EMAILS, members := [recordOf tsFail [] (blankRow "a@b.c") none] }

/-- Witness for C2: the count invariant instantiated on a concrete
one-row run. -/
theorem output_counts_invariant_witness :
    outA.totalMembers = outA.memberCount + outA.collaboratorCount
    ∧ outA.totalMembers = outA.members.length := by
  have h := output_counts_invariant tsFail "now" [blankRow "a@b.c"] [] outA (by rfl)
  exact ⟨h.1, h.2.1⟩

/-- C3: in every successful run no output record's lowercased email is in
the fixed exclusion set, and the member list is obtained by building
records, in order, precisely from the order-preserving filter of the
member rows whose normalized (stripped, lowercased) email avoids that
set. -/
theorem excluded_emails_filtered (ts : Cell → Except PyErr String) (now : String)
    (mrows : List MemberRow) (arows : List AccountRow) (out : Output)
    (h : runPipeline ts now mrows arows = Except.ok out) :
    (∀ rec ∈ out.members, pyLower rec.email ∉ EXCLUDED_EMAILS)
    ∧ ∃ am, buildAccountMap arows = Except.ok am ∧
        mapME (processRow ts am) (mrows.filter survives) = Except.ok out.members := by
  obtain ⟨am, records, ham, hmap, rfl⟩ := runPipeline_ok h
  refine ⟨?_, am, ham, hmap⟩
  intro rec hrec
  obtain ⟨x, hx, hfx⟩ := mapME_ok_mem hmap rec hrec
  obtain ⟨gen, hg, rfl⟩ := processRow_ok hfx
  have hsurv : survives x = true := (List.mem_filter.mp hx).2
  have hnot : normEmail x.email ∉ EXCLUDED_EMAILS := by
    simpa [survives] using hsurv
  have hemail : pyLower (recordOf ts am x gen).email = normEmail x.email := by
    simp [recordOf, normEmail]
  rw [hemail]
  exact hnot

/-- Output of the one-row run used by the C3 witness. -/
def outU : Output :=
  { generatedAt := "now", totalMembers := 1, memberCount := 0, collaboratorCount := 1,
    excludedEmails := EXCLUDED_EMAILS, members := [recordOf tsFail [] (blankRow "User@b.c") none] }

/-- Witness for C3: the record produced for a concrete non-excluded row
has a lowercased email outside the exclusion set. -/
theorem excluded_emails_filtered_witness :
    pyLower (recordOf tsFail [] (blankRow "User@b.c") none).email ∉ EXCLUDED_EMAILS := by
  have h := (excluded_emails_filtered tsFail "now" [blankRow "User@b.c"] [] outU (by rfl)).1
  exact h (recordOf tsFail [] (blankRow "User@b.c") none) (by simp [outU])

/-- C8: the displayName of every built record is the space-joined
non-absent first-name and paternal-surname cells, and falls back to the
local part of the trimmed email (the part before the first at-sign)
exactly when both name cells are blank. -/
theorem display_name_rule (ts : Cell → Except PyErr String)
    (am : List (String × String)) (row : MemberRow) (rec : Record)
    (h : processRow ts am row = Except.ok rec) :
    (safe_str row.nombres = none ∧ safe_str row.apellidoPaterno = none →
      rec.displayName = (pySplit '@' (pyStrip row.email)).headD (pyStrip row.email))
    ∧ (¬(safe_str row.nombres = none ∧ safe_str row.apellidoPaterno = none) →
      rec.displayName = joinNames [safe_str row.nombres, safe_str row.apellidoPaterno]) := by
  obtain ⟨gen, hg, rfl⟩ := processRow_ok h
  constructor
  · rintro ⟨h1, h2⟩
    simp [recordOf, h1, h2, joinNames, joinSp]
  · intro hne
    have hj : joinNames [safe_str row.nombres, safe_str row.apellidoPaterno] ≠ "" :=
      joinNames_pair_ne_empty (fun s hs => safe_str_ne_empty hs)
        (fun s hs => safe_str_ne_empty hs) hne
    simp [recordOf, hj]

/-- The jdoe row of the spec's example, for the C8 witness. -/
def rowJ : MemberRow := blankRow "jdoe@example.com"

/-- Witness for C8: both name cells blank and email `jdoe@example.com`
give displayName `jdoe`. -/
theorem display_name_rule_witness :
    (recordOf tsFail [] rowJ none).displayName = "jdoe" := by
  have h0 : processRow tsFail [] rowJ = Except.ok (recordOf tsFail [] rowJ none) := rfl
  have h := (display_name_rule tsFail [] rowJ (recordOf tsFail [] rowJ none) h0).1 ⟨rfl, rfl⟩
  rw [h]
  rfl

/-- C9: the lastName of every built record is a plain string (the field
is not optional in the record type): the space-joined non-absent stripped
paternal and maternal surname cells, equal to the empty string when both
are blank — while firstName is the optional `safe_str` of its cell, so it
is absent on blank input. -/
theorem last_name_always_string (ts : Cell → Except PyErr String)
    (am : List (String × String)) (row : MemberRow) (rec : Record)
    (h : processRow ts am row = Except.ok rec) :
    rec.lastName = joinNames [safe_str row.apellidoPaterno, safe_str row.apellidoMaterno]
    ∧ (safe_str row.apellidoPaterno = none ∧ safe_str row.apellidoMaterno = none →
      rec.lastName = "")
    ∧ rec.firstName = safe_str row.nombres := by
  obtain ⟨gen, hg, rfl⟩ := processRow_ok h
  refine ⟨by simp [recordOf], ?_, by simp [recordOf]⟩
  rintro ⟨h1, h2⟩
  simp [recordOf, h1, h2, joinNames, joinSp]

/-- A row with only a paternal surname, for the C9 witness. -/
def rowG : MemberRow := { blankRow "g@x.com" with apellidoPaterno := Cell.str "Garcia" }

/-- Witness for C9: one surname cell set gives that surname as lastName,
and the blank first-name cell gives an absent firstName. -/
theorem last_name_always_string_witness :
    (recordOf tsFail [] rowG none).lastName = "Garcia"
    ∧ (recordOf tsFail [] rowG none).firstName = none := by
  have h0 : processRow tsFail [] rowG = Except.ok (recordOf tsFail [] rowG none) := rfl
  have h := last_name_always_string tsFail [] rowG (recordOf tsFail [] rowG none) h0
  refine ⟨?_, h.2.2⟩
  rw [h.1]
  rfl

/-- Discriminator for a result that did not propagate an exception. -/
def isOkE : Except PyErr (Option String) → Bool
  | .ok _ => true
  | .error _ => false

/-- C6 counterexample: on the cell text `"+inf"` the claim's only
possible readings both fail: `normalize_generation` neither passes the
trimmed text through nor renders an integer part — it propagates an
uncaught `OverflowError` (Python: `float("+inf")` is infinite, and
`int(inf)` raises `OverflowError`, which `except (ValueError, TypeError)`
does not catch). -/
theorem normalize_generation_inf_not_passthrough :
    normalize_generation (Cell.str "+inf") ≠ Except.ok (some "+inf")
    ∧ normalize_generation (Cell.str "+inf") = Except.error PyErr.overflowError := by
  exact ⟨by decide, by decide⟩

/-- C6 as amended: blank gives absent; a cell whose float coercion is a
finite value gives the string of its integer part truncated toward zero;
a cell whose float coercion fails (`ValueError`/`TypeError`) or is nan
passes its trimmed text through unchanged; and — the amendment — a cell
whose text parses to an infinite float propagates an `OverflowError`.
In particular generation `2021.0` gives `"2021"` and `"N/A"` passes
through. -/
theorem normalize_generation_cases_amended (c : Cell) :
    (isna c = true → normalize_generation c = Except.ok none)
    ∧ (∀ q, pyFloat c = Except.ok (PyFloat.finite q) →
        normalize_generation c = Except.ok (some (toString (ratTrunc q))))
    ∧ (∀ b, pyFloat c = Except.ok (PyFloat.inf b) →
        normalize_generation c = Except.error PyErr.overflowError)
    ∧ (isna c = false → pyFloat c = Except.ok PyFloat.nan →
        normalize_generation c = Except.ok (some (pyStrip (pyStr c))))
    ∧ (∀ e, pyFloat c = Except.error e →
        normalize_generation c = Except.ok (some (pyStrip (pyStr c))))
    ∧ normalize_generation (Cell.num 2021) = Except.ok (some "2021")
    ∧ normalize_generation (Cell.str "N/A") = Except.ok (some "N/A") := by
  refine ⟨?_, ?_, ?_, ?_, ?_, by decide, by decide⟩
  · intro h
    cases c with
    | absent => rfl
    | str s => exact absurd h (by simp [isna])
    | num q => exact absurd h (by simp [isna])
    | date iso => exact absurd h (by simp [isna])
  · intro q hq
    cases c with
    | absent => simp [pyFloat] at hq
    | num q' =>
      simp [pyFloat] at hq
      subst hq
      simp [normalize_generation, genTryBody, pyFloat, pyIntOfFloat, isna]
    | str s =>
      cases hp : parsePyFloat s with
      | none => simp [pyFloat, hp] at hq
      | some f =>
        simp [pyFloat, hp] at hq
        subst hq
        simp [normalize_generation, genTryBody, pyFloat, hp, pyIntOfFloat, isna]
    | date iso => simp [pyFloat] at hq
  · intro b hq
    cases c with
    | absent => simp [pyFloat] at hq
    | num q' => simp [pyFloat] at hq
    | str s =>
      cases hp : parsePyFloat s with
      | none => simp [pyFloat, hp] at hq
      | some f =>
        simp [pyFloat, hp] at hq
        subst hq
        simp [normalize_generation, genTryBody, pyFloat, hp, pyIntOfFloat, isna]
    | date iso => simp [pyFloat] at hq
  · intro hna hq
    cases c with
    | absent => simp [isna] at hna
    | num q' => simp [pyFloat] at hq
    | str s =>
      cases hp : parsePyFloat s with
      | none => simp [pyFloat, hp] at hq
      | some f =>
        simp [pyFloat, hp] at hq
        subst hq
        simp [normalize_generation, genTryBody, pyFloat, hp, pyIntOfFloat, isna]
    | date iso => simp [pyFloat] at hq
  · intro e he
    cases c with
    | absent => simp [pyFloat] at he
    | num q' => simp [pyFloat] at he
    | str s =>
      cases hp : parsePyFloat s with
      | none =>
        simp [pyFloat, hp] at he
        simp [normalize_generation, genTryBody, pyFloat, hp, isna]
      | some f => simp [pyFloat, hp] at he
    | date iso =>
      simp [pyFloat] at he
      simp [normalize_generation, genTryBody, pyFloat, isna]

/-- Witness for C6 (amended): the finite-float case discharged at the
spec's own example, generation cell `2021.0`. -/
theorem normalize_generation_cases_amended_witness :
    normalize_generation (Cell.num 2021) = Except.ok (some "2021") := by
  have h := (normalize_generation_cases_amended (Cell.num 2021)).2.1 2021 (by rfl)
  rw [h]
  decide

/-- C4 counterexample: `normalize_generation` is not total — on the cell
text `"inf"` it propagates an uncaught `OverflowError` instead of
degrading to an absent or string value. -/
theorem normalize_generation_inf_raises :
    normalize_generation (Cell.str "inf") = Except.error PyErr.overflowError := by decide

/-- C4 as amended: `parse_skills`, `normalize_academic_level` and
`safe_str` are total by construction (their Python bodies are built from
the total primitives `str`/`strip`/`lower`/`split`, so they are embedded
with pure codomains); `to_iso` is total for every date parser, swallowing
any parser exception into an absent value; and `normalize_generation` is
total except on cells whose text parses to an infinite float, where the
`except (ValueError, TypeError)` clause misses the `OverflowError` of
`int(float(...))` and the exception propagates. -/
theorem normalizers_total_amended (f : Cell → Except PyErr String) (c : Cell) :
    (parsesToInf c = false → isOkE (normalize_generation c) = true)
    ∧ (parsesToInf c = true → normalize_generation c = Except.error PyErr.overflowError)
    ∧ (∀ e, f c = Except.error e →
        to_iso f c = (match c with | Cell.date iso => some iso | _ => none)) := by
  refine ⟨?_, ?_, ?_⟩
  · intro h
    cases c with
    | absent => rfl
    | num q => simp [normalize_generation, genTryBody, pyFloat, pyIntOfFloat, isna, isOkE]
    | str s =>
      cases hp : parsePyFloat s with
      | none => simp [normalize_generation, genTryBody, pyFloat, hp, isna, isOkE]
      | some pf =>
        cases pf with
        | finite q => simp [normalize_generation, genTryBody, pyFloat, hp, pyIntOfFloat, isna, isOkE]
        | inf b => simp [parsesToInf, hp] at h
        | nan => simp [normalize_generation, genTryBody, pyFloat, hp, pyIntOfFloat, isna, isOkE]
    | date iso => simp [normalize_generation, genTryBody, pyFloat, isna, isOkE]
  · intro h
    cases c with
    | absent => simp [parsesToInf] at h
    | num q => simp [parsesToInf] at h
    | str s =>
      cases hp : parsePyFloat s with
      | none => simp [parsesToInf, hp] at h
      | some pf =>
        cases pf with
        | finite q => simp [parsesToInf, hp] at h
        | inf b => simp [normalize_generation, genTryBody, pyFloat, hp, pyIntOfFloat, isna]
        | nan => simp [parsesToInf, hp] at h
    | date iso => simp [parsesToInf] at h
  · intro e he
    cases c with
    | absent => rfl
    | num q => simp [to_iso, isna, he]
    | str s => simp [to_iso, isna, he]
    | date iso => rfl

/-- Witness for C4 (amended): a plain unparseable text cell keeps
`normalize_generation` total, and `to_iso` swallows the concrete
parser's rejection of the same cell. -/
theorem normalizers_total_amended_witness :
    isOkE (normalize_generation (Cell.str "abc")) = true
    ∧ to_iso tsFail (Cell.str "abc") = none := by
  refine ⟨(normalizers_total_amended tsFail (Cell.str "abc")).1 (by decide), ?_⟩
  have h := (normalizers_total_amended tsFail (Cell.str "abc")).2.2 PyErr.valueError rfl
  simpa using h

/-- C5: `parse_skills` agrees everywhere with the spec-side rule — blank
gives the empty list, otherwise split the cell text on commas and
semicolons, trim each token, drop the tokens that trim to nothing, in
original order with duplicates kept — and on the spec's example
`"Python; SQL, , R"` it returns `["Python", "SQL", "R"]`. -/
theorem parse_skills_spec_rule :
    (∀ c, parse_skills c = parseSkillsSpec c)
    ∧ parse_skills (Cell.str "Python; SQL, , R") = ["Python", "SQL", "R"] := by
  constructor
  · intro c
    unfold parse_skills parseSkillsSpec
    cases hc : isna c with
    | true => rfl
    | false =>
      rw [if_neg (show ¬(false = true) by simp), if_neg (show ¬(false = true) by simp)]
      rw [splitList_semi]
  · decide

/-- C7: the account joiner skips blank account-number rows without
creating any entry, and a row with a coercible account number overwrites
whatever an earlier row stored under the same normalized email — the
last row wins silently, the stored value being the string rendering of
the integer account number, with every other key untouched. -/
theorem account_map_semantics (rows : List AccountRow) (r : AccountRow) :
    (isna r.numeroCuenta = true → buildAccountMap (rows ++ [r]) = buildAccountMap rows)
    ∧ (∀ m i, buildAccountMap rows = Except.ok m → isna r.numeroCuenta = false →
        pyInt r.numeroCuenta = Except.ok i →
          buildAccountMap (rows ++ [r])
              = Except.ok (dictInsert m (normEmail r.email) (toString i))
          ∧ alookup (dictInsert m (normEmail r.email) (toString i)) (normEmail r.email)
              = some (toString i)
          ∧ ∀ k, k ≠ normEmail r.email →
              alookup (dictInsert m (normEmail r.email) (toString i)) k = alookup m k) := by
  constructor
  · intro hb
    unfold buildAccountMap
    rw [buildAccountMapFrom_append rows r []]
    cases buildAccountMapFrom [] rows with
    | error e => rfl
    | ok m =>
      have hn : notna r.numeroCuenta = false := by simp [notna, hb]
      simp [buildAccountMapFrom, hn]
  · intro m i hm hb hi
    have hn : notna r.numeroCuenta = true := by simp [notna, hb]
    refine ⟨?_, alookup_dictInsert_self m (normEmail r.email) (toString i), ?_⟩
    · unfold buildAccountMap at hm ⊢
      rw [buildAccountMapFrom_append rows r [], hm]
      simp [buildAccountMapFrom, hn, hi]
    · intro k hk
      exact alookup_dictInsert_ne m (normEmail r.email) (toString i) k hk

/-- Witness for C7: a second row for the same normalized email replaces
the account number stored by the first. -/
theorem account_map_semantics_witness :
    buildAccountMap [⟨"a@x.com", Cell.num 1⟩, ⟨"a@x.com", Cell.num 42⟩]
        = Except.ok (dictInsert [("a@x.com", "1")] "a@x.com" "42")
    ∧ alookup (dictInsert [("a@x.com", "1")] "a@x.com" "42") "a@x.com" = some "42" := by
  have h := (account_map_semantics [⟨"a@x.com", Cell.num 1⟩] ⟨"a@x.com", Cell.num 42⟩).2
    [("a@x.com", "1")] 42 (by decide) (by decide) (by decide)
  exact ⟨h.1, h.2.1⟩

/-- The malformed account row of the C10 claim. -/
def badAcct : AccountRow := ⟨"user@example.com", Cell.str "not-a-number"⟩

/-- C10: an account row whose account-number cell is non-blank but not
numerically coercible makes the joiner raise an uncaught `ValueError`
(`int("not-a-number")`), and the whole run aborts with that error before
any output document exists; the skip behaviour covers only blank cells. -/
theorem account_map_malformed_raises :
    notna badAcct.numeroCuenta = true
    ∧ buildAccountMap [badAcct] = Except.error PyErr.valueError
    ∧ runPipeline tsFail "now" [blankRow "a@b.c"] [badAcct] = Except.error PyErr.valueError := by
  refine ⟨rfl, by decide, by decide⟩
